import Mathlib

/-!
# Verification of the ranking engine of GoogleSearch_Reimagination

A shallow embedding of the server-side ranking module (`ranking-engine.js`,
the module required by `server.js` as `./ranking-engine`) together with the
parts of the client code that the claims reference.  JavaScript numbers are
modelled as exact rationals (`ℚ`); the JavaScript falsy behaviour of `0`,
`''`, `undefined` and `null` in the expressions `x || d`, `if (x)` is modelled
explicitly, as documented on each helper.
-/

/-- JS `x || d` for a number-valued field: `0`, `NaN` and `undefined` are
falsy, any other number is returned unchanged.  A missing numeric field and a
zero field behave identically in the source, so item fields are plain `ℚ`
with `0` standing for "absent". -/
def jsOr (x d : ℚ) : ℚ := if x = 0 then d else x

/-- JS `s || d` for a string-valued field: both `undefined` and `''` are
falsy, so `""` models a missing string field. -/
def jsOrString (s d : String) : String := if s = "" then d else s

/-- JS `String.prototype.toLowerCase`, modelled character-wise (the data of
the repository is ASCII, where `Char.toLower` agrees with JS). -/
def toLowerString (s : String) : String := String.mk (s.data.map Char.toLower)

/-- `hasInfix l pattern = true` iff `pattern` occurs contiguously in `l`:
it is a prefix of some suffix of `l`. -/
def hasInfix (l pattern : List Char) : Bool :=
  match l with
  | [] => pattern.isEmpty
  | c :: rest => pattern.isPrefixOf (c :: rest) || hasInfix rest pattern

/-- JS `s.includes(t)`: substring containment. -/
def jsIncludes (s t : String) : Bool := hasInfix s.data t.data

/-- JS `parseInt` applied to an already-numeric value, i.e. truncation of the
decimal representation toward zero. -/
def jsParseInt (x : ℚ) : ℚ := if 0 ≤ x then ((⌊x⌋ : ℤ) : ℚ) else ((⌈x⌉ : ℤ) : ℚ)

/-- JS `Math.round`: round half toward positive infinity. -/
def jsRound (x : ℚ) : ℤ := ⌊x + 1 / 2⌋

/-- JS `profile.charAt(0).toUpperCase() + profile.slice(1)`. -/
def jsCapitalize (s : String) : String :=
  match s.data with
  | [] => ""
  | c :: cs => String.mk (c.toUpper :: cs)

/-- JS `query.split(/\s+/)`, modelled by splitting at every whitespace
character.  Runs of whitespace produce extra empty fragments here, which
`/\s+/` would merge, but every caller immediately filters the fragments by
`word.length > 3`, where empty fragments are dropped anyway, so the two
splittings are interchangeable in this program. -/
def splitOnWs (s : String) : List String :=
  (s.data.foldr
    (fun c groups =>
      if c.isWhitespace then [] :: groups
      else
        match groups with
        | [] => [[c]]
        | g :: gs => (c :: g) :: gs)
    [[]]).map String.mk

/-- `extractKeywords` (ranking-engine.js lines 129-135 and app.js lines
229-235): lowercase, split on whitespace, keep only words longer than 3
characters, keep the first 5. -/
def extractKeywords (query : String) : List String :=
  (((splitOnWs (toLowerString query)).filter fun word => word.length > 3).take 5)

/-- `getReadingTimeScore` (ranking-engine.js lines 116-124). -/
def getReadingTimeScore (readingTime : ℚ) : ℚ :=
  let maxTime : ℚ := 60
  let minTime : ℚ := 5
  if readingTime ≤ minTime then 1
  else if readingTime ≥ maxTime then 0
  else 1 - ((readingTime - minTime) / (maxTime - minTime))

/-- The per-profile weight vector over the eight metrics.  JS stores these as
object literals; object key order only affects the iteration order of
`Object.entries` in `computePersonalizationScore`, which forms two commutative
sums, so a fixed field order is an equivalent model. -/
structure ProfileWeights where
  simplicity : ℚ
  relevance : ℚ
  recency : ℚ
  reviews : ℚ
  depth : ℚ
  price : ℚ
  citations : ℚ
  readingTime : ℚ
deriving DecidableEq, Repr

/-- `profileWeights.student` (ranking-engine.js lines 22-31). -/
def studentWeights : ProfileWeights :=
  { simplicity := 0.30, relevance := 0.25, recency := 0.15, reviews := 0.15,
    depth := 0.10, price := 0.05, citations := 0.00, readingTime := -0.05 }

/-- `profileWeights.shopper` (ranking-engine.js lines 32-41). -/
def shopperWeights : ProfileWeights :=
  { simplicity := 0.10, relevance := 0.20, recency := 0.05, reviews := 0.30,
    depth := 0.00, price := 0.35, citations := 0.00, readingTime := 0.00 }

/-- `profileWeights.researcher` (ranking-engine.js lines 42-51). -/
def researcherWeights : ProfileWeights :=
  { simplicity := 0.00, relevance := 0.20, recency := 0.05, reviews := 0.10,
    depth := 0.30, price := 0.00, citations := 0.35, readingTime := 0.00 }

/-- `profileWeights.casual` (ranking-engine.js lines 52-61). -/
def casualWeights : ProfileWeights :=
  { simplicity := 0.20, relevance := 0.35, recency := 0.25, reviews := 0.10,
    depth := 0.00, price := 0.05, citations := 0.00, readingTime := -0.15 }

/-- The JS lookup `profileWeights[profile]`: `some` for the four known
profiles, `none` (JS `undefined`) otherwise. -/
def profileWeightsMap (profile : String) : Option ProfileWeights :=
  if profile = "student" then some studentWeights
  else if profile = "shopper" then some shopperWeights
  else if profile = "researcher" then some researcherWeights
  else if profile = "casual" then some casualWeights
  else none

/-- A candidate item of the corpus (`data/results.json` shape).  `category`
uses `""` for "missing" (JS treats `undefined` and `''` identically at every
use site of `category`); `tags` is an `Option` because in JS an empty array is
truthy while a missing field is not; numeric metrics use `0` for "missing"
(`undefined` and `0` behave identically at every numeric use site, including
`readingTime`, which is only read through `|| 15` or a truthiness test). -/
structure SearchItem where
  id : Nat
  title : String
  url : String
  summary : String
  category : String
  tags : Option (List String)
  relevance : ℚ
  simplicity : ℚ
  price : ℚ
  reviews : ℚ
  citations : ℚ
  depth : ℚ
  recency : ℚ
  readingTime : ℚ
deriving DecidableEq, Repr, Inhabited

/-- User constraints as parsed by the callers.  `budget` is a boolean flag;
`readingTime` uses `0` for "not set" (JS `null`/`0` are both falsy);
`skillLevel` uses `""` for "not set". `budgetAmount`/`currency` are carried by
the request but never read by the ranking core. -/
structure Constraints where
  budget : Bool
  budgetAmount : ℚ
  currency : String
  readingTime : ℚ
  skillLevel : String
deriving DecidableEq, Repr

/-- Constraints with nothing set. -/
def noConstraints : Constraints :=
  { budget := false, budgetAmount := 0, currency := "USD", readingTime := 0, skillLevel := "" }

/-- `computeRelevanceScore` (ranking-engine.js lines 141-177): base relevance
metric, optional category-match factor, optional tag-match factor, normalised
by the sum of the active factor weights and clamped to `[0, 1]`. -/
def computeRelevanceScore (result : SearchItem) (queryKeywords : List String) : ℚ :=
  let score1 : ℚ := jsOr result.relevance 0 * 0.6
  let factors1 : ℚ := 0.6
  let p2 : ℚ × ℚ :=
    if result.category ≠ "" ∧ queryKeywords.length > 0 then
      let categoryMatch := queryKeywords.any fun keyword =>
        jsIncludes (toLowerString result.category) keyword ||
        jsIncludes keyword (toLowerString result.category)
      (if categoryMatch then score1 + 0.25 else score1, factors1 + 0.25)
    else (score1, factors1)
  let p3 : ℚ × ℚ :=
    match result.tags with
    | none => p2
    | some tags =>
      if queryKeywords.length > 0 then
        let matchingTags := tags.filter fun tag =>
          queryKeywords.any fun keyword =>
            jsIncludes (toLowerString tag) keyword ||
            jsIncludes keyword (toLowerString tag)
        let tagMatchRatio : ℚ := (matchingTags.length : ℚ) / ((max 1 tags.length : ℕ) : ℚ)
        (p2.1 + tagMatchRatio * 0.15, p2.2 + 0.15)
      else p2
  let normalizedScore := if p3.2 > 0 then p3.1 / p3.2 else jsOr result.relevance 0
  max 0 (min 1 normalizedScore)

/-- The running `adjustment` accumulated by `applyConstraintAdjustments`
(ranking-engine.js lines 235-295), before the final clamp on line 299.
Mirrors the source: inside this function `result.price` is read through
`|| 0`, while `result.simplicity`, `result.depth` and `result.citations` are
read directly. -/
def constraintAdjustmentRaw (result : SearchItem) (constraints : Constraints) : ℚ :=
  let maxPenalty : ℚ := -0.25
  let maxBonus : ℚ := 0.15
  let adj1 : ℚ :=
    if constraints.budget then
      let priceScore := jsOr result.price 0
      (1 - priceScore) * maxPenalty * 0.8
    else 0
  let adj2 : ℚ :=
    if constraints.readingTime ≠ 0 then
      let maxReadingTime := jsParseInt constraints.readingTime
      let resultReadingTime := jsOr result.readingTime 15
      let a :=
        if resultReadingTime ≤ maxReadingTime then adj1 + maxBonus * 0.4
        else
          let overageRatio := min 1 ((resultReadingTime - maxReadingTime) / maxReadingTime)
          adj1 + overageRatio * maxPenalty * 0.5
      a + result.simplicity * (maxBonus * 0.15)
    else adj1
  let adj3 : ℚ :=
    if constraints.skillLevel = "beginner" then
      adj2 + result.simplicity * (maxBonus * 0.6) + result.depth * maxPenalty * 0.5
    else if constraints.skillLevel = "intermediate" then
      let depthOptimal := if result.depth > 0.3 then result.depth else (0.3 : ℚ)
      adj2 + depthOptimal * (maxBonus * 0.2)
    else if constraints.skillLevel = "advanced" then
      adj2 + result.depth * (maxBonus * 0.4) + result.citations * (maxBonus * 0.3)
        + (1 - result.depth) * maxPenalty * 0.1
    else adj2
  adj3

/-- `applyConstraintAdjustments` (ranking-engine.js lines 234-300): the
accumulated adjustment clamped to `[-0.25, 0.15]`
(`Math.max(maxPenalty, Math.min(maxBonus, adjustment))`). -/
def applyConstraintAdjustments (result : SearchItem) (constraints : Constraints) : ℚ :=
  max (-0.25) (min 0.15 (constraintAdjustmentRaw result constraints))

/-- `computePersonalizationScore` (ranking-engine.js lines 183-222).  An
unknown profile returns the neutral `0.5` immediately, before any constraint
handling.  For a known profile the seven non-relevance metrics are combined
with the profile weights (skipping zero weights), normalised by the total
absolute weight, the constraint adjustment is added, and the result is
clamped to `[0, 1]`. -/
def computePersonalizationScore (result : SearchItem) (profile : String)
    (constraints : Constraints) : ℚ :=
  match profileWeightsMap profile with
  | none => 0.5
  | some weights =>
    let readingTimeScore := getReadingTimeScore (jsOr result.readingTime 15)
    let metricWeightPairs : List (ℚ × ℚ) :=
      [(jsOr result.simplicity 0, weights.simplicity),
       (jsOr result.price 0, weights.price),
       (jsOr result.reviews 0, weights.reviews),
       (jsOr result.citations 0, weights.citations),
       (jsOr result.depth 0, weights.depth),
       (jsOr result.recency 0, weights.recency),
       (readingTimeScore, weights.readingTime)]
    let profileScore : ℚ :=
      metricWeightPairs.foldl (fun acc p => if p.2 ≠ 0 then acc + p.1 * p.2 else acc) (0 : ℚ)
    let totalWeight : ℚ :=
      metricWeightPairs.foldl (fun acc p => if p.2 ≠ 0 then acc + |p.2| else acc) (0 : ℚ)
    let normalizedProfileScore := if totalWeight > 0 then profileScore / totalWeight else 0.5
    let constraintBonus := applyConstraintAdjustments result constraints
    max 0 (min 1 (normalizedProfileScore + constraintBonus))

/-- The admission test of `filterByQueryIntent` (ranking-engine.js lines
312-321): build the tag list `[category || '', ...tags]`, lowercase it, and
admit when any keyword and any tag contain one another. -/
def intentMatches (keywords : List String) (result : SearchItem) : Bool :=
  let resultTags :=
    ((jsOrString result.category "") :: result.tags.getD []).map toLowerString
  keywords.any fun keyword =>
    resultTags.any fun tag => jsIncludes tag keyword || jsIncludes keyword tag

/-- `filterByQueryIntent` (ranking-engine.js lines 305-322): with an empty
keyword list every candidate is admitted unchanged, otherwise candidates are
kept by `intentMatches`. -/
def filterByQueryIntent (results : List SearchItem) (query : String) : List SearchItem :=
  let keywords := extractKeywords query
  if keywords.length = 0 then results
  else results.filter (intentMatches keywords)

/-- The final fallback of `generateExplanations` (ranking-engine.js lines
434-440): if nothing was collected, emit one generic line keyed on
`relevanceScore >= 0.5`. -/
def applyExplanationFallback (relevanceScore : ℚ) (explanations : List String) : List String :=
  if explanations.length = 0 then
    if relevanceScore ≥ 0.5 then
      ["✓ Relevant match (" ++ toString (jsRound (relevanceScore * 100)) ++ "%)"]
    else ["✓ Best available match for your search"]
  else explanations

/-- The body of `generateExplanations` (ranking-engine.js lines 344-443) for
an already-resolved weight vector.  The lists are concatenated in the order
the source pushes them: category match, tag matches, high relevance,
reading-time fit, budget, skill level, profile preference, then the fallback
of `applyExplanationFallback`. -/
def generateExplanationsWith (result : SearchItem) (weights : ProfileWeights)
    (profile : String) (constraints : Constraints) (queryKeywords : List String)
    (relevanceScore _personalizationScore : ℚ) : List String :=
  let scoreContributionThreshold : ℚ := 0.6
  let categoryLines : List String :=
    if result.category ≠ "" ∧ queryKeywords.length > 0 then
      if queryKeywords.any (fun keyword =>
          jsIncludes (toLowerString result.category) keyword ||
          jsIncludes keyword (toLowerString result.category)) then
        ["✓ Matches \"" ++ result.category ++ "\" result type you\x27re looking for"]
      else []
    else []
  let tagLines : List String :=
    match result.tags with
    | none => []
    | some tags =>
      if queryKeywords.length > 0 then
        let matchingTags := tags.filter fun tag =>
          queryKeywords.any fun keyword =>
            jsIncludes (toLowerString tag) keyword ||
            jsIncludes keyword (toLowerString tag)
        if matchingTags.length > 0 then
          ["✓ Matches your interests: " ++ String.intercalate ", " (matchingTags.take 3) ++
            (if matchingTags.length > 3 then " ..." else "")]
        else []
      else []
  let relevanceLines : List String :=
    if relevanceScore ≥ scoreContributionThreshold then
      ["✓ Highly relevant to your search (" ++ toString (jsRound (relevanceScore * 100))
        ++ "% match)"]
    else []
  let contributingFactors : List String :=
    (if weights.simplicity > 0.2 ∧ result.simplicity > scoreContributionThreshold then
      ["Easy to understand"] else []) ++
    (if weights.price > 0.2 ∧ result.price > scoreContributionThreshold then
      ["Affordable"] else []) ++
    (if weights.reviews > 0.2 ∧ result.reviews > scoreContributionThreshold then
      ["Highly reviewed"] else []) ++
    (if weights.citations > 0.2 ∧ result.citations > scoreContributionThreshold then
      ["Highly cited"] else []) ++
    (if weights.depth > 0.2 ∧ result.depth > scoreContributionThreshold then
      ["Comprehensive and detailed"] else []) ++
    (if weights.recency > 0.15 ∧ result.recency > scoreContributionThreshold then
      ["Recently updated"] else [])
  let readingTimeLines : List String :=
    if constraints.readingTime ≠ 0 then
      let maxTime := jsParseInt constraints.readingTime
      if result.readingTime ≠ 0 ∧ result.readingTime ≤ maxTime then
        ["✓ Fits your " ++ toString maxTime ++ "-minute reading time limit ("
          ++ toString result.readingTime ++ " min)"]
      else []
    else []
  let budgetLines : List String :=
    if constraints.budget ∧ result.price > scoreContributionThreshold then
      ["✓ Respects your budget constraint"]
    else []
  let skillLines : List String :=
    if constraints.skillLevel ≠ "" then
      if constraints.skillLevel = "beginner" ∧ result.simplicity > scoreContributionThreshold then
        ["✓ Appropriate for beginner level"]
      else if constraints.skillLevel = "intermediate" ∧ result.depth > 0.4 then
        ["✓ Good depth for intermediate learners"]
      else if constraints.skillLevel = "advanced" ∧ result.depth > scoreContributionThreshold then
        ["✓ Sufficient depth for advanced learners"]
      else []
    else []
  let profileLines : List String :=
    if contributingFactors.length > 0 then
      ["✓ " ++ jsCapitalize profile ++ " preference: "
        ++ String.intercalate ", " (contributingFactors.take 2)]
    else []
  applyExplanationFallback relevanceScore
    (categoryLines ++ tagLines ++ relevanceLines ++ readingTimeLines ++ budgetLines
      ++ skillLines ++ profileLines)

/-- `generateExplanations` (ranking-engine.js lines 344-443).  The source
dereferences `profileWeights[profile]` without a guard (`weights.simplicity`),
so with an unknown profile it throws a `TypeError`; that crash is modelled as
`none`. -/
def generateExplanations (result : SearchItem) (profile : String)
    (constraints : Constraints) (queryKeywords : List String)
    (relevanceScore personalizationScore : ℚ) : Option (List String) :=
  (profileWeightsMap profile).map fun weights =>
    generateExplanationsWith result weights profile constraints queryKeywords
      relevanceScore personalizationScore

/-- The `context` argument of `scoreResult`. -/
structure ScoreContext where
  query : String
  queryKeywords : Option (List String)
  constraints : Constraints
deriving DecidableEq, Repr

/-- `scoreResult` (ranking-engine.js lines 327-338): final score =
70 % relevance + 30 % personalization.  (In JS, `context.queryKeywords || ...`
falls through only for a missing field: an empty array is truthy.) -/
def scoreResult (result : SearchItem) (profile : String) (context : ScoreContext) : ℚ :=
  let queryKeywords := context.queryKeywords.getD (extractKeywords context.query)
  let constraints := context.constraints
  let relevanceScore := computeRelevanceScore result queryKeywords
  let personalizationScore := computePersonalizationScore result profile constraints
  0.7 * relevanceScore + 0.3 * personalizationScore

/-- A request to `rankResults`.  In the source `profile` defaults to
`'casual'` and `constraints`/`results` to `{}`/`[]` when the fields are
absent; every field is explicit here. -/
structure RankRequest where
  query : String
  profile : String
  constraints : Constraints
  results : List SearchItem
deriving DecidableEq, Repr

/-- An element of the list returned by `rankResults`: the spread candidate
(`...result`) plus `score`, `profile` and `explanations`. -/
structure ScoredResult where
  result : SearchItem
  score : ℚ
  profile : String
  explanations : List String
deriving DecidableEq, Repr, Inhabited

/-- The scoring map of `rankResults` (ranking-engine.js lines 474-485),
applied to the intent-filtered candidates, for an already-resolved weight
vector. -/
def rankScored (request : RankRequest) (weights : ProfileWeights) : List ScoredResult :=
  let queryKeywords := extractKeywords request.query
  (filterByQueryIntent request.results request.query).map fun result =>
    let relevanceScore := computeRelevanceScore result queryKeywords
    let personalizationScore :=
      computePersonalizationScore result request.profile request.constraints
    let finalScore := 0.7 * relevanceScore + 0.3 * personalizationScore
    ScoredResult.mk result finalScore request.profile
      (generateExplanationsWith result weights request.profile request.constraints
        queryKeywords relevanceScore personalizationScore)

/-- The comparison underlying `scoredResults.sort((a, b) => b.score - a.score)`:
`a` may precede `b` iff `a.score ≥ b.score`. -/
def scoreDesc (a b : ScoredResult) : Prop := b.score ≤ a.score

instance : DecidableRel scoreDesc :=
  fun a b => inferInstanceAs (Decidable (b.score ≤ a.score))

instance : IsTotal ScoredResult scoreDesc :=
  ⟨fun a b => le_total b.score a.score⟩

instance : IsTrans ScoredResult scoreDesc :=
  ⟨fun _ _ _ h1 h2 => le_trans h2 h1⟩

/-- `scoredResults.sort((a, b) => b.score - a.score)` (ranking-engine.js line
488).  ECMAScript `Array.prototype.sort` is required to be stable, and any two
stable sorts for the same total preorder agree, so the stable
`List.insertionSort` is an exact model of the sorted array. -/
def sortByScoreDesc (l : List ScoredResult) : List ScoredResult :=
  l.insertionSort scoreDesc

/-- `rankResults` (ranking-engine.js lines 456-491): empty input or an empty
intent filter yield `[]`; otherwise every surviving candidate is scored,
given explanations, and the whole list is sorted by descending score — with
no truncation.  An unknown profile would make the `generateExplanations` call
inside the map throw, which is modelled as `none`; the two early returns fire
before any scoring, so they are `some []` for every profile. -/
def rankResults (request : RankRequest) : Option (List ScoredResult) :=
  if request.results.length = 0 then some []
  else if (filterByQueryIntent request.results request.query).length = 0 then some []
  else
    match profileWeightsMap request.profile with
    | none => none
    | some weights => some (sortByScoreDesc (rankScored request weights))

/-! ## Concrete fixtures used by witnesses and counterexamples -/

unseal Rat.add Rat.mul Rat.sub Rat.inv Rat.ofScientific

/-- A minimal candidate in the `tutorial` category with a given base
relevance; all other metrics zero, reading time 10 minutes. -/
def mkCandidate (i : Nat) (rel : ℚ) : SearchItem :=
  { id := i, title := "t", url := "u", summary := "s", category := "tutorial", tags := none,
    relevance := rel, simplicity := 0, price := 0, reviews := 0, citations := 0,
    depth := 0, recency := 0, readingTime := 10 }

/-- A candidate with every field empty or zero. -/
def item0 : SearchItem :=
  { id := 0, title := "", url := "", summary := "", category := "", tags := none,
    relevance := 0, simplicity := 0, price := 0, reviews := 0, citations := 0,
    depth := 0, recency := 0, readingTime := 0 }

/-- A candidate whose category is missing and whose tags share nothing with
any query. -/
def itemC10 : SearchItem :=
  { id := 10, title := "t", url := "u", summary := "s", category := "", tags := some ["zzz"],
    relevance := 0.5, simplicity := 0, price := 0, reviews := 0, citations := 0,
    depth := 0, recency := 0, readingTime := 10 }

/-- A free candidate (`price = 0`, i.e. maximally expensive in the price
desirability scale) used for the unknown-profile counterexample. -/
def itemC4 : SearchItem := mkCandidate 1 0.9

/-- Budget constraint active, nothing else. -/
def constraintsC4 : Constraints := { noConstraints with budget := true }

/-- A request whose six candidates all survive the intent filter for the
query `"tutorial"`. -/
def req6 : RankRequest :=
  { query := "tutorial", profile := "casual", constraints := noConstraints,
    results := [mkCandidate 1 0.9, mkCandidate 2 0.5, mkCandidate 3 0.8,
                mkCandidate 4 0.3, mkCandidate 5 0.7, mkCandidate 6 0.6] }

/-- The list `rankResults req6` returns. -/
def out6 : List ScoredResult := sortByScoreDesc (rankScored req6 casualWeights)

/-- A single-candidate request. -/
def req1 : RankRequest :=
  { query := "tutorial", profile := "casual", constraints := noConstraints,
    results := [mkCandidate 1 0.8] }

/-- The list `rankResults req1` returns. -/
def out1 : List ScoredResult := sortByScoreDesc (rankScored req1 casualWeights)

/-- The single scored result of `out1`. -/
def s1 : ScoredResult := out1.headI

/-- The generic fallback explanation list for a low-relevance result. -/
def explFallbackList : List String := ["✓ Best available match for your search"]

/-! ## Helper lemmas -/

/-- `Math.max(0, Math.min(1, x))` lands in `[0, 1]`. -/
theorem clamp01_bounds (x : ℚ) : 0 ≤ max 0 (min 1 x) ∧ max 0 (min 1 x) ≤ 1 :=
  ⟨le_max_left 0 _, max_le (by norm_num) (min_le_left 1 x)⟩

/-- The empty pattern occurs in every character list. -/
theorem hasInfix_nil (l : List Char) : hasInfix l [] = true := by
  cases l <;> simp [hasInfix, List.isPrefixOf]

/-- JS `s.includes('')` is always true. -/
theorem jsIncludes_empty (s : String) : jsIncludes s "" = true := hasInfix_nil s.data

theorem toLowerString_empty : toLowerString "" = "" := rfl

/-- The intent filter of the empty candidate list. -/
theorem filterByQueryIntent_nil (query : String) : filterByQueryIntent [] query = [] := by
  simp only [filterByQueryIntent]
  split <;> simp

/-- The relevance score is the clamp of some rational, hence in `[0, 1]`. -/
theorem computeRelevanceScore_bounds (result : SearchItem) (queryKeywords : List String) :
    0 ≤ computeRelevanceScore result queryKeywords ∧
      computeRelevanceScore result queryKeywords ≤ 1 :=
  clamp01_bounds _

/-- The personalization score is `0.5` or a clamp, hence in `[0, 1]`. -/
theorem computePersonalizationScore_bounds (result : SearchItem) (profile : String)
    (constraints : Constraints) :
    0 ≤ computePersonalizationScore result profile constraints ∧
      computePersonalizationScore result profile constraints ≤ 1 := by
  unfold computePersonalizationScore
  cases profileWeightsMap profile with
  | none => norm_num
  | some weights => exact clamp01_bounds _

/-- One scoring map element: length is preserved. -/
theorem length_rankScored (request : RankRequest) (weights : ProfileWeights) :
    (rankScored request weights).length
      = (filterByQueryIntent request.results request.query).length := by
  simp [rankScored]

/-- Every element produced by the scoring map carries the 70/30 combination
of its own relevance and personalization scores. -/
theorem score_of_mem_rankScored {request : RankRequest} {weights : ProfileWeights}
    {s : ScoredResult} (hs : s ∈ rankScored request weights) :
    s.score = 0.7 * computeRelevanceScore s.result (extractKeywords request.query)
      + 0.3 * computePersonalizationScore s.result request.profile request.constraints := by
  simp only [rankScored, List.mem_map] at hs
  obtain ⟨a, -, rfl⟩ := hs
  rfl

/-- Case analysis on a successful `rankResults` call: either one of the two
early returns fired (empty result list, and then the filtered list is empty
too), or the output is the sorted scored list for the resolved profile. -/
theorem rankResults_some_cases {request : RankRequest} {out : List ScoredResult}
    (h : rankResults request = some out) :
    (out = [] ∧ filterByQueryIntent request.results request.query = []) ∨
      (∃ weights, profileWeightsMap request.profile = some weights ∧
        out = sortByScoreDesc (rankScored request weights)) := by
  unfold rankResults at h
  split at h
  · rename_i hlen
    left
    refine ⟨(Option.some_inj.mp h).symm, ?_⟩
    rw [List.length_eq_zero.mp hlen, filterByQueryIntent_nil]
  · split at h
    · rename_i hlen
      left
      exact ⟨(Option.some_inj.mp h).symm, List.length_eq_zero.mp hlen⟩
    · split at h
      · exact absurd h (by simp)
      · rename_i weights hw
        right
        exact ⟨weights, hw, (Option.some_inj.mp h).symm⟩

/-- Every member of a successful `rankResults` output comes from the scoring
map of the resolved profile. -/
theorem mem_rankScored_of_rankResults {request : RankRequest} {out : List ScoredResult}
    {s : ScoredResult} (h : rankResults request = some out) (hs : s ∈ out) :
    ∃ weights, profileWeightsMap request.profile = some weights ∧
      s ∈ rankScored request weights := by
  rcases rankResults_some_cases h with ⟨rfl, -⟩ | ⟨weights, hw, rfl⟩
  · simp at hs
  · simp only [sortByScoreDesc] at hs
    exact ⟨weights, hw, (List.mem_insertionSort scoreDesc).mp hs⟩

theorem getReadingTimeScore_of_le {t : ℚ} (h : t ≤ 5) : getReadingTimeScore t = 1 := by
  simp [getReadingTimeScore, h]

theorem getReadingTimeScore_of_ge {t : ℚ} (h : 60 ≤ t) : getReadingTimeScore t = 0 := by
  have h5 : ¬ t ≤ 5 := by linarith
  simp [getReadingTimeScore, h5, ge_iff_le, h]

theorem getReadingTimeScore_of_mid {t : ℚ} (h5 : 5 < t) (h60 : t < 60) :
    getReadingTimeScore t = 1 - (t - 5) / (60 - 5) := by
  have a1 : ¬ t ≤ 5 := not_le.mpr h5
  have a2 : ¬ t ≥ 60 := not_le.mpr h60
  simp [getReadingTimeScore, a1, a2]

theorem getReadingTimeScore_bounds (t : ℚ) :
    0 ≤ getReadingTimeScore t ∧ getReadingTimeScore t ≤ 1 := by
  by_cases h1 : t ≤ 5
  · rw [getReadingTimeScore_of_le h1]; norm_num
  · by_cases h2 : 60 ≤ t
    · rw [getReadingTimeScore_of_ge h2]; norm_num
    · push_neg at h1 h2
      rw [getReadingTimeScore_of_mid h1 h2]
      have h55 : (60 : ℚ) - 5 = 55 := by norm_num
      rw [h55]
      have hub : (t - 5) / 55 ≤ 1 := (div_le_one (by norm_num)).mpr (by linarith)
      have hlb : 0 ≤ (t - 5) / 55 := div_nonneg (by linarith) (by norm_num)
      constructor <;> linarith

theorem getReadingTimeScore_antitone {t1 t2 : ℚ} (h : t1 ≤ t2) :
    getReadingTimeScore t2 ≤ getReadingTimeScore t1 := by
  by_cases h1 : t2 ≤ 5
  · rw [getReadingTimeScore_of_le h1, getReadingTimeScore_of_le (le_trans h h1)]
  · by_cases h2 : 60 ≤ t1
    · rw [getReadingTimeScore_of_ge h2, getReadingTimeScore_of_ge (le_trans h2 h)]
    · by_cases h3 : t1 ≤ 5
      · rw [getReadingTimeScore_of_le h3]
        exact (getReadingTimeScore_bounds t2).2
      · by_cases h4 : 60 ≤ t2
        · rw [getReadingTimeScore_of_ge h4]
          exact (getReadingTimeScore_bounds t1).1
        · push_neg at h1 h2 h3 h4
          rw [getReadingTimeScore_of_mid h3 h2, getReadingTimeScore_of_mid h1 h4]
          have h55 : (60 : ℚ) - 5 = 55 := by norm_num
          rw [h55]
          have hdiv : (t1 - 5) / 55 ≤ (t2 - 5) / 55 :=
            (div_le_div_iff_of_pos_right (by norm_num)).mpr (by linarith)
          linarith

/-! ## Claims -/

/-- C3: for every candidate and every constraints object, the value returned
by the constraint adjuster lies in the closed interval `[-0.25, 0.15]`. -/
theorem applyConstraintAdjustments_bounded (result : SearchItem) (constraints : Constraints) :
    -0.25 ≤ applyConstraintAdjustments result constraints ∧
      applyConstraintAdjustments result constraints ≤ 0.15 := by
  unfold applyConstraintAdjustments
  exact ⟨le_max_left _ _, max_le (by norm_num) (min_le_left _ _)⟩

/-- C4 (counterexample): for the unknown profile `"expert"` with an active
budget constraint on a maximally expensive candidate, the code returns the
bare `0.5`, while the claimed formula `clamp(0.5 + adjustment, 0, 1)` yields
`0.3`: the constraint adjustment is not applied for an unknown profile. -/
theorem computePersonalizationScore_unknown_profile_counterexample :
    profileWeightsMap "expert" = none ∧
    computePersonalizationScore itemC4 "expert" constraintsC4 = 0.5 ∧
    applyConstraintAdjustments itemC4 constraintsC4 = -0.2 ∧
    max 0 (min 1 ((0.5 : ℚ) + applyConstraintAdjustments itemC4 constraintsC4)) = 0.3 ∧
    (0.5 : ℚ) ≠ 0.3 :=
  ⟨by decide, by decide, by decide, by decide, by decide⟩

/-- C4 (amended): for a profile outside the four known ones the
personalization score is exactly the neutral `0.5`; the function returns
before the ConstraintAdjuster runs, so no bonus/penalty is added and no
clamping is involved. -/
theorem computePersonalizationScore_unknown_profile (result : SearchItem) (profile : String)
    (constraints : Constraints) (h : profileWeightsMap profile = none) :
    computePersonalizationScore result profile constraints = 0.5 := by
  unfold computePersonalizationScore
  rw [h]

/-- C4 witness: the amended theorem applied at an explicit unknown profile. -/
theorem computePersonalizationScore_unknown_profile_witness :
    computePersonalizationScore item0 "expert" noConstraints = 0.5 :=
  computePersonalizationScore_unknown_profile item0 "expert" noConstraints (by decide)

/-- C7: whenever the extracted keyword sequence of a query is empty, the
query-intent filter returns the candidate list unchanged. -/
theorem filterByQueryIntent_empty_keywords (results : List SearchItem) (query : String)
    (h : extractKeywords query = []) : filterByQueryIntent results query = results := by
  simp [filterByQueryIntent, h]

/-- C7 witness: the query `"a to"` has only tokens of length ≤ 3, so its
keyword sequence is empty and the filter admits the whole list unchanged. -/
theorem filterByQueryIntent_empty_keywords_witness :
    extractKeywords "a to" = [] ∧ filterByQueryIntent [item0] "a to" = [item0] :=
  ⟨by decide, filterByQueryIntent_empty_keywords [item0] "a to" (by decide)⟩

/-- C8: the reading-time normalizer returns 1 for `t ≤ 5`, 0 for `t ≥ 60`,
the linear interpolation `1 - (t - 5)/(60 - 5)` strictly in between (so
`f 32.5 = 0.5`), and is monotonically non-increasing. -/
theorem getReadingTimeScore_spec :
    (∀ t : ℚ, t ≤ 5 → getReadingTimeScore t = 1) ∧
    (∀ t : ℚ, 60 ≤ t → getReadingTimeScore t = 0) ∧
    (∀ t : ℚ, 5 < t → t < 60 → getReadingTimeScore t = 1 - (t - 5) / (60 - 5)) ∧
    getReadingTimeScore 32.5 = 0.5 ∧
    (∀ t1 t2 : ℚ, t1 < t2 → getReadingTimeScore t2 ≤ getReadingTimeScore t1) := by
  refine ⟨fun t h => getReadingTimeScore_of_le h,
    fun t h => getReadingTimeScore_of_ge h,
    fun t h5 h60 => getReadingTimeScore_of_mid h5 h60, ?_,
    fun t1 t2 h => getReadingTimeScore_antitone (le_of_lt h)⟩
  rw [getReadingTimeScore_of_mid (by norm_num) (by norm_num)]
  norm_num

/-- C8 witness: the spec applied at concrete reading times. -/
theorem getReadingTimeScore_spec_witness :
    getReadingTimeScore 3 = 1 ∧ getReadingTimeScore 70 = 0 ∧
    getReadingTimeScore 20 ≤ getReadingTimeScore 10 :=
  ⟨getReadingTimeScore_spec.1 3 (by norm_num),
   getReadingTimeScore_spec.2.1 70 (by norm_num),
   getReadingTimeScore_spec.2.2.2.2 10 20 (by norm_num)⟩

theorem applyExplanationFallback_length (relevanceScore : ℚ) (explanations : List String) :
    1 ≤ (applyExplanationFallback relevanceScore explanations).length := by
  unfold applyExplanationFallback
  split
  · split <;> simp
  · rename_i h
    omega

/-- C9: whenever the explanation generator returns (i.e. the profile resolves
to a weight vector; the source would throw on an unknown profile), the
returned list of explanation strings is non-empty — the final fallback emits
a single generic line keyed on `relevanceScore ≥ 0.5` when nothing else
qualified. -/
theorem generateExplanations_nonempty (result : SearchItem) (profile : String)
    (constraints : Constraints) (queryKeywords : List String)
    (relevanceScore personalizationScore : ℚ) (es : List String)
    (h : generateExplanations result profile constraints queryKeywords
      relevanceScore personalizationScore = some es) : 1 ≤ es.length := by
  simp only [generateExplanations, Option.map_eq_some'] at h
  obtain ⟨weights, -, rfl⟩ := h
  exact applyExplanationFallback_length _ _

/-- C9 witness: a zero candidate with no keywords and no constraints gets
exactly the generic low-relevance line. -/
theorem generateExplanations_nonempty_witness :
    generateExplanations item0 "casual" noConstraints [] 0 0 = some explFallbackList ∧
    1 ≤ explFallbackList.length :=
  ⟨rfl, generateExplanations_nonempty item0 "casual" noConstraints [] 0 0
    explFallbackList rfl⟩

/-- C10: with a non-empty keyword sequence, a candidate whose category is
missing/empty is always admitted by the intent filter, regardless of its
tags: the empty string enters the tag list and every keyword contains `""`
as a substring, so the bidirectional containment test succeeds. -/
theorem emptyCategory_admitted (results : List SearchItem) (query : String)
    (result : SearchItem) (hmem : result ∈ results)
    (hkw : extractKeywords query ≠ []) (hcat : result.category = "") :
    intentMatches (extractKeywords query) result = true ∧
    result ∈ filterByQueryIntent results query := by
  obtain ⟨k, ks, hk⟩ : ∃ k ks, extractKeywords query = k :: ks := by
    cases hq : extractKeywords query with
    | nil => exact absurd hq hkw
    | cons k ks => exact ⟨k, ks, rfl⟩
  have h0 : jsOrString result.category "" = "" := by rw [hcat]; rfl
  have hmatch : intentMatches (extractKeywords query) result = true := by
    rw [hk]
    unfold intentMatches
    simp only [h0, List.map_cons, toLowerString_empty, List.any_cons, List.any_eq_true,
      Bool.or_eq_true, jsIncludes_empty, or_true, true_or]
  refine ⟨hmatch, ?_⟩
  have hlen : ¬ (extractKeywords query).length = 0 := by
    rw [hk]; simp
  simp only [filterByQueryIntent, if_neg hlen]
  exact List.mem_filter.mpr ⟨hmem, hmatch⟩

/-- C10 witness: a candidate with empty category and an unrelated tag is
admitted for the query `"anything"`. -/
theorem emptyCategory_admitted_witness :
    intentMatches (extractKeywords "anything") itemC10 = true ∧
    itemC10 ∈ filterByQueryIntent [itemC10] "anything" :=
  emptyCategory_admitted [itemC10] "anything" itemC10 (by decide) (by decide) rfl

/-- C1 (counterexample): a request with 6 candidates that all survive the
intent filter, on which `rankResults` returns all 6 scored results — not 3.
The claimed truncation to the top 3 does not exist in `rankResults`. -/
theorem rankResults_no_truncation_counterexample :
    (filterByQueryIntent req6.results req6.query).length = 6 ∧
    (rankResults req6).map List.length = some 6 ∧
    (rankResults req6).map List.length ≠ some 3 :=
  ⟨by decide, by decide, by decide⟩

/-- C1 (amended): `rankResults` never truncates: whenever it returns a list,
that list has exactly one entry per candidate surviving the intent filter
(so 6 survivors yield 6 ranked results, not 3).  The top-3 truncation the
claim describes lives only in the client-side display path
(`rankAndDisplayResults`, app.js line 773: `allRankedResults.slice(0, 3)`),
outside the core pipeline. -/
theorem rankResults_no_truncation (request : RankRequest) (out : List ScoredResult)
    (h : rankResults request = some out) :
    out.length = (filterByQueryIntent request.results request.query).length := by
  rcases rankResults_some_cases h with ⟨rfl, hfil⟩ | ⟨weights, -, rfl⟩
  · simp [hfil]
  · simp [sortByScoreDesc, List.length_insertionSort, rankScored]

/-- C1 witness: the amended theorem applied to the 6-candidate request. -/
theorem rankResults_no_truncation_witness :
    out6.length = (filterByQueryIntent req6.results req6.query).length :=
  rankResults_no_truncation req6 out6 rfl

/-- C2: every result in a `rankResults` output carries the final score
`0.7 × relevance + 0.3 × personalization`, where both component scores are
computed from that result, the keywords extracted from the request query,
and the request profile and constraints.  Scores are exact rationals here,
so the equality is exact. -/
theorem rankResults_score_combination (request : RankRequest) (out : List ScoredResult)
    (h : rankResults request = some out) (s : ScoredResult) (hs : s ∈ out) :
    s.score = 0.7 * computeRelevanceScore s.result (extractKeywords request.query)
      + 0.3 * computePersonalizationScore s.result request.profile request.constraints := by
  obtain ⟨weights, -, hmem⟩ := mem_rankScored_of_rankResults h hs
  exact score_of_mem_rankScored hmem

/-- C2 witness: the combination checked on the concrete single-candidate
request. -/
theorem rankResults_score_combination_witness :
    rankResults req1 = some out1 ∧ s1 ∈ out1 ∧
    s1.score = 0.7 * computeRelevanceScore s1.result (extractKeywords req1.query)
      + 0.3 * computePersonalizationScore s1.result req1.profile req1.constraints :=
  ⟨rfl, by decide, rankResults_score_combination req1 out1 rfl s1 (by decide)⟩

/-- C5: relevance scores, personalization scores and the combined final
scores of a `rankResults` output all lie in `[0, 1]`. -/
theorem scores_unit_interval :
    (∀ (result : SearchItem) (queryKeywords : List String),
      0 ≤ computeRelevanceScore result queryKeywords ∧
        computeRelevanceScore result queryKeywords ≤ 1) ∧
    (∀ (result : SearchItem) (profile : String) (constraints : Constraints),
      0 ≤ computePersonalizationScore result profile constraints ∧
        computePersonalizationScore result profile constraints ≤ 1) ∧
    (∀ (request : RankRequest) (out : List ScoredResult),
      rankResults request = some out → ∀ s ∈ out, 0 ≤ s.score ∧ s.score ≤ 1) := by
  refine ⟨computeRelevanceScore_bounds, computePersonalizationScore_bounds, ?_⟩
  intro request out h s hs
  obtain ⟨weights, -, hmem⟩ := mem_rankScored_of_rankResults h hs
  rw [score_of_mem_rankScored hmem]
  obtain ⟨hr0, hr1⟩ := computeRelevanceScore_bounds s.result (extractKeywords request.query)
  obtain ⟨hp0, hp1⟩ :=
    computePersonalizationScore_bounds s.result request.profile request.constraints
  constructor <;> nlinarith

/-- C5 witness: the final-score bound applied to the concrete
single-candidate request. -/
theorem scores_unit_interval_witness : 0 ≤ s1.score ∧ s1.score ≤ 1 :=
  scores_unit_interval.2.2 req1 out1 rfl s1 (by decide)

/-- C6: every `rankResults` output is sorted by descending final score, and
the sort is stable: two results with equal scores keep the relative order
they had in the scored (input-ordered) list.  The closed conjunct checks the
spec example: input final scores `[0.9, 0.4, 0.7]` come out `[0.9, 0.7, 0.4]`. -/
theorem rankResults_sorted_stable :
    (∀ (request : RankRequest) (weights : ProfileWeights) (out : List ScoredResult),
      profileWeightsMap request.profile = some weights →
      rankResults request = some out →
      out.Pairwise scoreDesc ∧
      (∀ a b : ScoredResult, a.score = b.score →
        List.Sublist [a, b] (rankScored request weights) → List.Sublist [a, b] out)) ∧
    (sortByScoreDesc [⟨item0, 0.9, "casual", []⟩, ⟨item0, 0.4, "casual", []⟩,
      ⟨item0, 0.7, "casual", []⟩]).map ScoredResult.score = [0.9, 0.7, 0.4] := by
  refine ⟨?_, by decide⟩
  intro request weights out hw h
  rcases rankResults_some_cases h with ⟨rfl, hfil⟩ | ⟨weights2, hw2, rfl⟩
  · have hnil : rankScored request weights = [] := by
      simp [rankScored, hfil]
    refine ⟨List.Pairwise.nil, ?_⟩
    intro a b _ hsub
    rw [hnil] at hsub
    simp at hsub
  · obtain rfl : weights = weights2 := Option.some_inj.mp (hw.symm.trans hw2)
    constructor
    · exact List.sorted_insertionSort scoreDesc (rankScored request weights)
    · intro a b hsc hsub
      exact List.pair_sublist_insertionSort (le_of_eq hsc.symm) hsub

/-- C6 witness: sortedness of the concrete single-candidate output. -/
theorem rankResults_sorted_stable_witness : out1.Pairwise scoreDesc :=
  (rankResults_sorted_stable.1 req1 casualWeights out1 rfl rfl).1
